import Mathlib

/-!
Shallow embedding of the token-verification core of the
`firebase-auth-cloudflare-workers` repository, together with proofs about
the claims of its specification.

Modelling conventions:
* JavaScript runtime values that flow through dynamically-typed positions
  (JSON claims, function arguments checked with `typeof`) are embedded as
  the inductive `JSValue`; JS numbers are embedded as `ℚ` (the temporal
  and duration arithmetic of this code never leaves the rationals).
* Byte sequences are `List Nat` (each entry `< 256`).
* `async` plumbing is dropped: every `Promise`-returning method becomes a
  pure function returning `Except e a`, a thrown exception becoming
  `Except.error`.
* External collaborators (WebCrypto, the key-value store, the network)
  are abstracted as explicit function parameters; everything the
  repository itself computes is embedded concretely.
-/

namespace FirebaseAuth

/-- Embedded JavaScript/JSON runtime value (numbers as `ℚ`). -/
inductive JSValue where
  | undef
  | null
  | bool (b : Bool)
  | num (q : ℚ)
  | str (s : String)
  | arr (elems : List JSValue)
  | obj (fields : List (String × JSValue))
deriving Repr

/-- Rendering of a value inside a JS template literal, used only to build
error-message strings (`${kid}` and friends); numeric rendering is
approximate, which no claim depends on. -/
def JSValue.display : JSValue → String
  | .undef => "undefined"
  | .null => "null"
  | .bool b => if b then "true" else "false"
  | .num q => toString q
  | .str s => s
  | .arr _ => ""
  | .obj _ => "[object Object]"

/-! ### validator.ts -/

/-- `validator.ts` `isString`: `typeof value === 'string'`. -/
def isString : JSValue → Bool
  | .str _ => true
  | _ => false

/-- `validator.ts` `isNumber`: `typeof value === 'number'`. -/
def isNumber : JSValue → Bool
  | .num _ => true
  | _ => false

/-- `validator.ts` `isNonEmptyString`: `isString(value) && value !== ''`. -/
def isNonEmptyString : JSValue → Bool
  | .str s => !(s == "")
  | _ => false

/-- `validator.ts` `isArray`. -/
def isArray : JSValue → Bool
  | .arr _ => true
  | _ => false

/-- `validator.ts` `isObject`: `typeof value === 'object' && !isArray(value)`
(note `typeof null === 'object'` in JS). -/
def isObject : JSValue → Bool
  | .obj _ => true
  | .null => true
  | _ => false

/-- `validator.ts` `isNonNullObject`: `isObject(value) && value !== null`. -/
def isNonNullObject (v : JSValue) : Bool :=
  isObject v && !(match v with | .null => true | _ => false)

/-! ### errors.ts -/

/-- `errors.ts` `JwtErrorCode` string-enum members. -/
inductive JwtErrorCode where
  | INVALID_ARGUMENT
  | INVALID_CREDENTIAL
  | TOKEN_EXPIRED
  | INVALID_SIGNATURE
  | NO_MATCHING_KID
  | NO_KID_IN_HEADER
  | KEY_FETCH_ERROR
deriving DecidableEq, Repr

/-- `errors.ts` `JwtError` (code plus message). -/
structure JwtError where
  code : JwtErrorCode
  message : String
deriving DecidableEq, Repr

/-- `errors.ts` `ErrorInfo`: a code string with a default message. -/
structure ErrorInfo where
  code : String
  message : String
deriving DecidableEq, Repr

/-- `errors.ts` `FirebaseAuthError`: a `PrefixedFirebaseError` whose code is
`'auth/' + info.code` and whose message is the custom message when provided,
the info's default message otherwise. -/
structure FirebaseAuthError where
  code : String
  message : String
deriving DecidableEq, Repr

/-- Constructing a `FirebaseAuthError` from an `ErrorInfo` and an optional
custom message, as the class constructor does. -/
def FirebaseAuthError.ofInfo (info : ErrorInfo) (msg : Option String := none) :
    FirebaseAuthError :=
  { code := "auth/" ++ info.code, message := msg.getD info.message }

/-- `errors.ts` `AuthClientErrorCode` members used by the verification core. -/
def AuthClientErrorCode.INVALID_ARGUMENT : ErrorInfo :=
  { code := "argument-error", message := "Invalid argument provided." }

def AuthClientErrorCode.ID_TOKEN_EXPIRED : ErrorInfo :=
  { code := "id-token-expired", message := "The provided Firebase ID token is expired." }

def AuthClientErrorCode.SESSION_COOKIE_EXPIRED : ErrorInfo :=
  { code := "session-cookie-expired", message := "The Firebase session cookie is expired." }

def AuthClientErrorCode.INVALID_ID_TOKEN : ErrorInfo :=
  { code := "invalid-id-token", message := "The provided ID token is not a valid Firebase ID token." }

def AuthClientErrorCode.INVALID_SESSION_COOKIE_DURATION : ErrorInfo :=
  { code := "invalid-session-cookie-duration",
    message := "The session cookie duration must be a valid number in milliseconds between 5 minutes and 2 weeks." }

def AuthClientErrorCode.USER_DISABLED : ErrorInfo :=
  { code := "user-disabled", message := "The user record is disabled." }

def AuthClientErrorCode.ID_TOKEN_REVOKED : ErrorInfo :=
  { code := "id-token-revoked", message := "The Firebase ID token has been revoked." }

def AuthClientErrorCode.SESSION_COOKIE_REVOKED : ErrorInfo :=
  { code := "session-cookie-revoked", message := "The Firebase session cookie has been revoked." }

/-- Projection used by theorem statements: the `JwtErrorCode` of a failed
computation, `none` on success. -/
def jwtErrCode {α : Type} : Except JwtError α → Option JwtErrorCode
  | .error e => some e.code
  | .ok _ => none

/-- Projection used by theorem statements: the `auth/…` code string of a
failed computation, `none` on success. -/
def authErrCode {α : Type} : Except FirebaseAuthError α → Option String
  | .error e => some e.code
  | .ok _ => none

/-- `Except.isOk` specialised; used to state that a call succeeded. -/
def exceptOk {ε α : Type} : Except ε α → Bool
  | .ok _ => true
  | .error _ => false

/-! ### jwt-decoder.ts

The raw token string has already been split on `.` into its three
base64url segments and the first two segments JSON-parsed (the codec layer
performing that step is embedded separately below from `base64.ts`); a
`TokenParts` therefore carries the parsed header and payload objects.  The
named claims a decode inspects are carried as explicit `JSValue` fields
(`undef` standing for an absent property); remaining claims are untouched
pass-through data and are not modelled. -/

/-- The JSON-parsed first segment of a JWT, before validation. -/
structure RawHeader where
  kid : JSValue
  alg : JSValue
deriving Repr

/-- The JSON-parsed second segment of a JWT, before validation.
`auth_time` is not checked by `decodePayload` but is carried through for
`verifyPayload`. -/
structure RawPayload where
  aud : JSValue
  sub : JSValue
  iss : JSValue
  iat : JSValue
  exp : JSValue
  auth_time : JSValue
deriving Repr

/-- A validated header (`kid` is known to be a string; `alg`, when it is a
string, is known to equal `"RS256"`). -/
structure DecodedHeader where
  kid : String
  alg : JSValue
deriving Repr

/-- A validated payload (`jwt-decoder.ts` `DecodedPayload`). -/
structure DecodedPayload where
  aud : String
  sub : String
  iss : String
  iat : ℚ
  exp : ℚ
  auth_time : JSValue
deriving Repr

/-- `jwt-decoder.ts` `decodeHeader`: require `kid` to be a string (else
`NO_KID_IN_HEADER`) and, when `alg` is a string, require it to be
`"RS256"` (else `INVALID_ARGUMENT`). -/
def decodeHeader (h : RawHeader) : Except JwtError DecodedHeader :=
  match h.kid with
  | .str kid =>
    match h.alg with
    | .str alg =>
      if alg = "RS256" then
        .ok { kid := kid, alg := .str alg }
      else
        .error { code := .INVALID_ARGUMENT,
                 message := "algorithm must be RS256 but got " ++ alg }
    | other => .ok { kid := kid, alg := other }
  | other =>
    .error { code := .NO_KID_IN_HEADER,
             message := "kid must be a string but got " ++ other.display }

/-- `jwt-decoder.ts` `decodePayload` with the caller-supplied
`currentTimestamp` (seconds): `aud`, `sub`, `iss` must be non-empty
strings and `iat`, `exp` numbers; `currentTimestamp <= iat` fails with
`INVALID_ARGUMENT` and `currentTimestamp > exp` fails with
`TOKEN_EXPIRED`, in source order. -/
def decodePayload (p : RawPayload) (currentTimestamp : ℚ) :
    Except JwtError DecodedPayload :=
  match p.aud with
  | .str aud =>
    if aud = "" then
      .error { code := .INVALID_ARGUMENT,
               message := "\"aud\" claim must be a string but got \"\"" }
    else
      match p.sub with
      | .str sub =>
        if sub = "" then
          .error { code := .INVALID_ARGUMENT,
                   message := "\"sub\" claim must be a string but got \"\"" }
        else
          match p.iss with
          | .str iss =>
            if iss = "" then
              .error { code := .INVALID_ARGUMENT,
                       message := "\"iss\" claim must be a string but got \"\"" }
            else
              match p.iat with
              | .num iat =>
                if currentTimestamp ≤ iat then
                  .error { code := .INVALID_ARGUMENT,
                           message := "Incorrect \"iat\" claim must be a older than \""
                             ++ toString currentTimestamp ++ "\" (iat: \"" ++ toString iat ++ "\")" }
                else
                  match p.exp with
                  | .num expv =>
                    if currentTimestamp > expv then
                      .error { code := .TOKEN_EXPIRED,
                               message := "Incorrect \"exp\" (expiration time) claim must be a newer than \""
                                 ++ toString currentTimestamp ++ "\" (exp: \"" ++ toString expv ++ "\")" }
                    else
                      .ok { aud := aud, sub := sub, iss := iss,
                            iat := iat, exp := expv, auth_time := p.auth_time }
                  | other =>
                    .error { code := .INVALID_ARGUMENT,
                             message := "\"exp\" claim must be a number but got \"" ++ other.display ++ "\"" }
              | other =>
                .error { code := .INVALID_ARGUMENT,
                         message := "\"iat\" claim must be a number but got \"" ++ other.display ++ "\"" }
          | other =>
            .error { code := .INVALID_ARGUMENT,
                     message := "\"iss\" claim must be a string but got \"" ++ other.display ++ "\"" }
      | other =>
        .error { code := .INVALID_ARGUMENT,
                 message := "\"sub\" claim must be a string but got \"" ++ other.display ++ "\"" }
  | other =>
    .error { code := .INVALID_ARGUMENT,
             message := "\"aud\" claim must be a string but got \"" ++ other.display ++ "\"" }

/-! ### base64.ts (codec layer)

`TextEncoder`/`TextDecoder` and `btoa`/`atob` are host primitives; they are
embedded here by their standard semantics (UTF-8 and RFC 4648 base64 with
`=`-padding).  `atob` follows forgiving-base64: up to two trailing `=` are
stripped when the length is a multiple of four, a remaining length of
1 mod 4 fails, and any character outside the standard alphabet fails
(`-` and `_` are NOT in the standard alphabet).  `TextDecoder.decode` is
modelled strictly (`none` on an invalid byte sequence) — the lossy
replacement-character behaviour never matters on the inputs considered. -/

/-- UTF-8 encoding of one Unicode code point. -/
def utf8EncodeCodepoint (c : Nat) : List Nat :=
  if c < 0x80 then [c]
  else if c < 0x800 then [0xC0 + c / 64, 0x80 + c % 64]
  else if c < 0x10000 then [0xE0 + c / 4096, 0x80 + c / 64 % 64, 0x80 + c % 64]
  else [0xF0 + c / 262144, 0x80 + c / 4096 % 64, 0x80 + c / 64 % 64, 0x80 + c % 64]

/-- `new TextEncoder().encode(s)`: the UTF-8 bytes of a string. -/
def textEncode (s : String) : List Nat :=
  (s.data.map (fun c => utf8EncodeCodepoint c.toNat)).flatten

/-- UTF-8 decoding to code points (strict). -/
def utf8DecodeCodepoints : List Nat → Option (List Nat)
  | [] => some []
  | b :: bs =>
    if b < 0x80 then
      (utf8DecodeCodepoints bs).map (b :: ·)
    else if b < 0xC0 then none
    else if b < 0xE0 then
      match bs with
      | b2 :: bs2 =>
        if 0x80 ≤ b2 && b2 < 0xC0 then
          (utf8DecodeCodepoints bs2).map (((b - 0xC0) * 64 + (b2 - 0x80)) :: ·)
        else none
      | [] => none
    else if b < 0xF0 then
      match bs with
      | b2 :: b3 :: bs3 =>
        if 0x80 ≤ b2 && b2 < 0xC0 && 0x80 ≤ b3 && b3 < 0xC0 then
          (utf8DecodeCodepoints bs3).map
            (((b - 0xE0) * 4096 + (b2 - 0x80) * 64 + (b3 - 0x80)) :: ·)
        else none
      | _ => none
    else
      match bs with
      | b2 :: b3 :: b4 :: bs4 =>
        if 0x80 ≤ b2 && b2 < 0xC0 && 0x80 ≤ b3 && b3 < 0xC0 && 0x80 ≤ b4 && b4 < 0xC0 then
          (utf8DecodeCodepoints bs4).map
            (((b - 0xF0) * 262144 + (b2 - 0x80) * 4096 + (b3 - 0x80) * 64 + (b4 - 0x80)) :: ·)
        else none
      | _ => none

/-- `new TextDecoder().decode(bytes)` (strict model). -/
def textDecode (bytes : List Nat) : Option String :=
  (utf8DecodeCodepoints bytes).map (fun cps => String.mk (cps.map Char.ofNat))

/-- The standard base64 alphabet. -/
def base64Alphabet : List Char :=
  "ABCDEFGHIJKLMNOPQRSTUVWXYZabcdefghijklmnopqrstuvwxyz0123456789+/".data

/-- Character of a sextet. -/
def base64Char (n : Nat) : Char := base64Alphabet.getD n 'A'

/-- `btoa` over the code units of a binary string, emitted as bytes:
standard base64 with `=`-padding. -/
def btoaBytes : List Nat → List Char
  | [] => []
  | [b1] => [base64Char (b1 / 4), base64Char (b1 % 4 * 16), '=', '=']
  | [b1, b2] =>
    [base64Char (b1 / 4), base64Char (b1 % 4 * 16 + b2 / 16), base64Char (b2 % 16 * 4), '=']
  | b1 :: b2 :: b3 :: rest =>
    base64Char (b1 / 4) :: base64Char (b1 % 4 * 16 + b2 / 16) ::
      base64Char (b2 % 16 * 4 + b3 / 64) :: base64Char (b3 % 64) :: btoaBytes rest

/-- Sextet of an alphabet character (`none` when the character is not in
the standard alphabet — `atob` then throws). -/
def base64Sextet (c : Char) : Option Nat :=
  base64Alphabet.indexOf? c

/-- All sextets of a character list, failing on the first invalid one. -/
def base64Sextets : List Char → Option (List Nat)
  | [] => some []
  | c :: cs => do
    let i ← base64Sextet c
    let rest ← base64Sextets cs
    pure (i :: rest)

/-- Reassembling bytes from sextets (the trailing group of 2 or 3 sextets
yields 1 or 2 bytes). -/
def sextetsToBytes : List Nat → List Nat
  | s1 :: s2 :: s3 :: s4 :: rest =>
    (s1 * 4 + s2 / 16) :: (s2 % 16 * 16 + s3 / 4) :: (s3 % 4 * 64 + s4) :: sextetsToBytes rest
  | [s1, s2, s3] => [s1 * 4 + s2 / 16, s2 % 16 * 16 + s3 / 4]
  | [s1, s2] => [s1 * 4 + s2 / 16]
  | _ => []

/-- Forgiving-base64 padding strip: remove up to two trailing `=` when the
length is a multiple of four. -/
def stripBase64Padding (cs : List Char) : List Char :=
  if cs.length % 4 = 0 then
    match cs.reverse with
    | '=' :: '=' :: rest => rest.reverse
    | '=' :: rest => rest.reverse
    | _ => cs
  else cs

/-- `atob(s)`: forgiving-base64 decode to bytes, `none` on a throw. -/
def atob (s : String) : Option (List Nat) :=
  let cs := stripBase64Padding s.data
  if cs.length % 4 = 1 then none
  else (base64Sextets cs).map sextetsToBytes

/-- `base64.ts` `pad`: restore `=`-padding by length mod 4. -/
def pad (s : String) : String :=
  match s.length % 4 with
  | 2 => s ++ "=="
  | 3 => s ++ "="
  | _ => s

/-- `base64.ts` `encodeBase64`: UTF-8 encode, byte-by-byte binary string,
`pad(btoa(...))`. -/
def encodeBase64 (s : String) : String :=
  pad (String.mk (btoaBytes (textEncode s)))

/-- `base64.ts` `decodeBase64`: `atob(pad(str))`, then decode the byte
array as UTF-8 text. -/
def decodeBase64 (s : String) : Option String :=
  (atob (pad s)).bind textDecode

/-- `base64.ts` `encodeBase64Url`: `encodeBase64` then the substitutions
`/`→`_`, `+`→`-` on the encoded text. -/
def encodeBase64Url (s : String) : String :=
  String.mk ((encodeBase64 s).data.map (fun c => if c = '/' then '_' else if c = '+' then '-' else c))

/-- `base64.ts` `decodeBase64Url`: `decodeBase64(str)` and then the
substitutions `_`→`/`, `-`→`+`.  NOTE: exactly as in the source, the
substitution is applied to the *decoded output* of `decodeBase64`, not to
the base64url input. -/
def decodeBase64Url (s : String) : Option String :=
  (decodeBase64 s).map (fun d =>
    String.mk (d.data.map (fun c => if c = '_' then '/' else if c = '-' then '+' else c)))

/-- The split (but not yet validated) token: the two parsed JSON segments.
The third, signature, segment only matters to the signature verifier and
is modelled there. -/
structure TokenParts where
  header : RawHeader
  payload : RawPayload
deriving Repr

/-- The structured result of a successful decode. -/
structure DecodedToken where
  header : DecodedHeader
  payload : DecodedPayload
deriving Repr

/-- `jwt-decoder.ts` `RS256Token.decode` after the three-way split:
validate the header, then the payload against `currentTimestamp`. -/
def RS256Token.decode (t : TokenParts) (currentTimestamp : ℚ) :
    Except JwtError DecodedToken := do
  let h ← decodeHeader t.header
  let p ← decodePayload t.payload currentTimestamp
  .ok { header := h, payload := p }

/-! ### jws-verifier.ts

WebCrypto (`crypto.subtle.importKey` / `crypto.subtle.verify`) is the
host's cryptography; it is abstracted as a boolean-valued function
`cryptoVerify key signature headerPayloadBytes` passed in explicitly.
What the verifier itself computes — key selection by `kid` and the error
taxonomy — is embedded concretely. -/

/-- `jwt-decoder.ts` `JsonWebKeyWithKid`: a JWK with its key id; the key
material itself is opaque to the selection logic. -/
structure JsonWebKeyWithKid where
  kid : String
  key : JSValue
deriving Repr

/-- The pieces of a decoded `RS256Token` that signature verification
consumes: the header's `kid`, the raw signature bytes (third segment,
base64url-decoded) and `getHeaderPayloadBytes()` (the original
`header.payload` substring, UTF-8 encoded). -/
structure SignedTokenInput where
  kid : String
  signature : List Nat
  headerPayloadBytes : List Nat
deriving Repr

namespace PublicKeySignatureVerifier

/-- `jws-verifier.ts` `PublicKeySignatureVerifier.verify`, given the key
set the key fetcher returned: walk the keys in order, skipping every key
whose `kid` differs from the token header's; at the first matching key,
cryptographically verify and either succeed or fail with
`INVALID_SIGNATURE` (later keys are never consulted); if the walk ends
with no match, fail with `NO_MATCHING_KID`. -/
def verify (cryptoVerify : JsonWebKeyWithKid → List Nat → List Nat → Bool)
    (publicKeys : List JsonWebKeyWithKid) (token : SignedTokenInput) :
    Except JwtError Unit :=
  match publicKeys with
  | [] => .error { code := .NO_MATCHING_KID, message := "The token does not match the kid." }
  | publicKey :: rest =>
    if publicKey.kid ≠ token.kid then
      verify cryptoVerify rest token
    else if cryptoVerify publicKey token.signature token.headerPayloadBytes then
      .ok ()
    else
      .error { code := .INVALID_SIGNATURE, message := "The token signature is invalid." }

end PublicKeySignatureVerifier

/-! ### jwk-fetcher.ts -/

/-- `jwk-fetcher.ts` `isX509Certificates`: a non-null object all of whose
property values are strings. -/
def isX509Certificates (v : JSValue) : Bool :=
  if !isNonNullObject v then false
  else
    match v with
    | .obj fields => fields.all (fun kv => isString kv.2)
    | _ => true

/-- First `max-age` directive of a comma-split, trimmed `Cache-Control`
header, converted by JS `Number(...)` — embedded as the parameter
`jsNumber`, with `none` standing for `NaN`. -/
def parseMaxAgeParts (jsNumber : String → Option ℚ) : List String → Option ℚ
  | [] => none
  | part :: rest =>
    let subParts := part.trim.splitOn "="
    if subParts.headD "" ≠ "max-age" then parseMaxAgeParts jsNumber rest
    else
      match subParts[1]? with
      | some v => jsNumber v
      | none => none

/-- `jwk-fetcher.ts` `parseMaxAge` (`none` models its `NaN` result). -/
def parseMaxAge (jsNumber : String → Option ℚ) (cacheControlHeader : Option String) : Option ℚ :=
  match cacheControlHeader with
  | none => none
  | some h => parseMaxAgeParts jsNumber (h.splitOn ",")

/-- The observed parts of the `Response` that `UrlKeyFetcher.refresh`
consumes: `ok`, `text()` (error branch), `json()` (already parsed) and
the `cache-control` header. -/
structure HttpResponse where
  ok : Bool
  text : String
  body : JSValue
  cacheControl : Option String

/-- A `keyStorer.put(JSON.stringify(jwks), maxAge)` effect recorded by the
model. -/
structure CachePut where
  value : List JsonWebKeyWithKid
  expirationTtl : ℚ

namespace UrlKeyFetcher

/-- `jwk-fetcher.ts` `UrlKeyFetcher.refresh` (the cache-miss path of
`fetchPublicKeys`): fail on a non-2xx response; then require the body to
pass `isX509Certificates` (NOTE: this is the only accepted shape in the
source — there is no `{ keys: [...] }` branch) and convert each
`[kid, pem]` entry through `x509ToJwk` (WebCrypto X.509 import/export,
abstracted as a parameter); finally cache the converted keys when a valid
positive `max-age` is present.  The returned pair is (keys, recorded
cache write). -/
def refresh (x509ToJwk : String → String → JsonWebKeyWithKid)
    (jsNumber : String → Option ℚ) (resp : HttpResponse) :
    Except String (List JsonWebKeyWithKid × Option CachePut) :=
  if !resp.ok then
    .error ("Error fetching public keys for Google certs: " ++ resp.text)
  else if !isX509Certificates resp.body then
    .error ("The public keys are not an object or null: \"" ++ resp.body.display)
  else
    let entries := match resp.body with | .obj fields => fields | _ => []
    let jwks := entries.map (fun kv =>
      x509ToJwk (match kv.2 with | .str s => s | _ => "") kv.1)
    let maxAge := parseMaxAge jsNumber resp.cacheControl
    match maxAge with
    | some m => if m > 0 then .ok (jwks, some { value := jwks, expirationTtl := m }) else .ok (jwks, none)
    | none => .ok (jwks, none)

end UrlKeyFetcher

/-! ### key-store.ts — `FirebaseTokenVerifier`

`Math.floor(Date.now() / 1000)` is the host clock; it enters the model as
the parameter `nowSeconds`.  The raw-token plumbing was decoded above; a
verifier operates on `TokenParts`.  The `isString(jwtToken)` guard of
`verifyJWT` is discharged by typing.  The real signature verifier
(fetch + crypto) is abstracted as `signatureVerifier : TokenParts →
Except JwtError Unit`; the emulator verifier is the constant success it
is in `jws-verifier.ts`. -/

/-- `key-store.ts` `FIREBASE_AUDIENCE`: the audience of custom tokens. -/
def FIREBASE_AUDIENCE : String :=
  "https://identitytoolkit.googleapis.com/google.identity.identitytoolkit.v1.IdentityToolkit"

/-- `key-store.ts` `FirebaseTokenInfo`. -/
structure FirebaseTokenInfo where
  url : String
  verifyApiName : String
  jwtName : String
  shortName : String
  expiredErrorCode : ErrorInfo
deriving Repr

/-- The constructor-validated state of a `FirebaseTokenVerifier`. -/
structure VerifierConfig where
  projectId : String
  issuer : String
  tokenInfo : FirebaseTokenInfo
deriving Repr

/-- `key-store.ts` `ID_TOKEN_INFO`. -/
def ID_TOKEN_INFO : FirebaseTokenInfo :=
  { url := "https://firebase.google.com/docs/auth/admin/verify-id-tokens",
    verifyApiName := "verifyIdToken()",
    jwtName := "Firebase ID token",
    shortName := "ID token",
    expiredErrorCode := AuthClientErrorCode.ID_TOKEN_EXPIRED }

/-- `key-store.ts` `SESSION_COOKIE_INFO`. -/
def SESSION_COOKIE_INFO : FirebaseTokenInfo :=
  { url := "https://firebase.google.com/docs/auth/admin/manage-cookies",
    verifyApiName := "verifySessionCookie()",
    jwtName := "Firebase session cookie",
    shortName := "session cookie",
    expiredErrorCode := AuthClientErrorCode.SESSION_COOKIE_EXPIRED }

/-- The configuration built by `baseCreateIdTokenVerifier`. -/
def idTokenVerifierConfig (projectId : String) : VerifierConfig :=
  { projectId := projectId, issuer := "https://securetoken.google.com/", tokenInfo := ID_TOKEN_INFO }

/-- The configuration built by `baseCreateSessionCookieVerifier`. -/
def sessionCookieVerifierConfig (projectId : String) : VerifierConfig :=
  { projectId := projectId, issuer := "https://session.firebase.google.com/", tokenInfo := SESSION_COOKIE_INFO }

/-- `this.shortNameArticle`: `'an'` when the short name starts with a
vowel, `'a'` otherwise. -/
def shortNameArticle (shortName : String) : String :=
  if shortName.isEmpty then "a"
  else if "aeiouAEIOU".contains shortName.front then "an" else "a"

/-- `key-store.ts` `makeExpectedbutGotMsg`. -/
def makeExpectedbutGotMsg (want got : String) : String :=
  "Expected \"" ++ want ++ "\" but got \"" ++ got ++ "\"."

namespace FirebaseTokenVerifier

/-- The ` Make sure the … comes from the same Firebase project …` fragment. -/
def projectIdMatchMessage (cfg : VerifierConfig) : String :=
  " Make sure the " ++ cfg.tokenInfo.shortName ++
    " comes from the same Firebase project as the service account used to authenticate this SDK."

/-- The ` See … for details on how to retrieve …` fragment. -/
def verifyJwtTokenDocsMessage (cfg : VerifierConfig) : String :=
  " See " ++ cfg.tokenInfo.url ++ " for details on how to retrieve " ++
    shortNameArticle cfg.tokenInfo.shortName ++ " " ++ cfg.tokenInfo.shortName ++ "."

/-- The audience-mismatch message of `verifyPayload`. -/
def audienceErrorMsg (cfg : VerifierConfig) (aud : String) : String :=
  cfg.tokenInfo.jwtName ++ " has incorrect \"aud\" (audience) claim. " ++
    makeExpectedbutGotMsg cfg.projectId aud ++ projectIdMatchMessage cfg ++
    verifyJwtTokenDocsMessage cfg

/-- The issuer-mismatch message of `verifyPayload`. -/
def issuerErrorMsg (cfg : VerifierConfig) (iss : String) : String :=
  cfg.tokenInfo.jwtName ++ " has incorrect \"iss\" (issuer) claim. " ++
    makeExpectedbutGotMsg cfg.issuer iss ++ projectIdMatchMessage cfg ++
    verifyJwtTokenDocsMessage cfg

/-- The over-long-subject message of `verifyPayload`. -/
def subjectErrorMsg (cfg : VerifierConfig) : String :=
  cfg.tokenInfo.jwtName ++ " has \"sub\" (subject) claim longer than 128 characters." ++
    verifyJwtTokenDocsMessage cfg

/-- The missing-`auth_time` message of `verifyPayload`. -/
def noAuthTimeErrorMsg (cfg : VerifierConfig) : String :=
  cfg.tokenInfo.jwtName ++ " has no \"auth_time\" claim. " ++ verifyJwtTokenDocsMessage cfg

/-- The future-`auth_time` message of `verifyPayload`. -/
def badAuthTimeErrorMsg (cfg : VerifierConfig) : String :=
  cfg.tokenInfo.jwtName ++ " has incorrect \"auth_time\" claim. " ++ verifyJwtTokenDocsMessage cfg

/-- `key-store.ts` `FirebaseTokenVerifier.verifyPayload`: the claims
policy over a structurally decoded payload, checked in source order
(audience, issuer, subject length, `auth_time` presence/type,
`auth_time` not in the future), each violation an `INVALID_ARGUMENT`
`FirebaseAuthError` with its message. -/
def verifyPayload (cfg : VerifierConfig) (payload : DecodedPayload)
    (currentTimestamp : ℚ) : Except FirebaseAuthError Unit :=
  if payload.aud ≠ cfg.projectId ∧ payload.aud ≠ FIREBASE_AUDIENCE then
    .error (FirebaseAuthError.ofInfo AuthClientErrorCode.INVALID_ARGUMENT
      (some (audienceErrorMsg cfg payload.aud)))
  else if payload.iss ≠ cfg.issuer ++ cfg.projectId then
    .error (FirebaseAuthError.ofInfo AuthClientErrorCode.INVALID_ARGUMENT
      (some (issuerErrorMsg cfg payload.iss)))
  else if payload.sub.length > 128 then
    .error (FirebaseAuthError.ofInfo AuthClientErrorCode.INVALID_ARGUMENT
      (some (subjectErrorMsg cfg)))
  else
    match payload.auth_time with
    | .num authTime =>
      if currentTimestamp < authTime then
        .error (FirebaseAuthError.ofInfo AuthClientErrorCode.INVALID_ARGUMENT
          (some (badAuthTimeErrorMsg cfg)))
      else
        .ok ()
    | _ =>
      .error (FirebaseAuthError.ofInfo AuthClientErrorCode.INVALID_ARGUMENT
        (some (noAuthTimeErrorMsg cfg)))

/-- The message `safeDecode` wraps every decode failure in. -/
def decodeErrorMsg (cfg : VerifierConfig) (e : JwtError) : String :=
  "Decoding " ++ cfg.tokenInfo.jwtName ++ " failed. Make sure you passed the entire string JWT which represents " ++
    shortNameArticle cfg.tokenInfo.shortName ++ " " ++ cfg.tokenInfo.shortName ++ "." ++
    verifyJwtTokenDocsMessage cfg ++ " err: " ++ e.message

/-- `key-store.ts` `FirebaseTokenVerifier.safeDecode`: run
`RS256Token.decode` and turn any thrown `JwtError` into an
`INVALID_ARGUMENT` `FirebaseAuthError` carrying the decode-failure text. -/
def safeDecode (cfg : VerifierConfig) (t : TokenParts) (currentTimestamp : ℚ) :
    Except FirebaseAuthError DecodedToken :=
  match RS256Token.decode t currentTimestamp with
  | .ok dt => .ok dt
  | .error e =>
    .error (FirebaseAuthError.ofInfo AuthClientErrorCode.INVALID_ARGUMENT
      (some (decodeErrorMsg cfg e)))

/-- `key-store.ts` `FirebaseTokenVerifier.mapJwtErrorToAuthError`. -/
def mapJwtErrorToAuthError (cfg : VerifierConfig) (e : JwtError) : FirebaseAuthError :=
  if e.code = .TOKEN_EXPIRED then
    FirebaseAuthError.ofInfo cfg.tokenInfo.expiredErrorCode
      (some (cfg.tokenInfo.jwtName ++ " has expired. Get a fresh " ++ cfg.tokenInfo.shortName ++
        " from your client app and try again (auth/" ++ cfg.tokenInfo.expiredErrorCode.code ++ ")." ++
        verifyJwtTokenDocsMessage cfg))
  else if e.code = .INVALID_SIGNATURE then
    FirebaseAuthError.ofInfo AuthClientErrorCode.INVALID_ARGUMENT
      (some (cfg.tokenInfo.jwtName ++ " has invalid signature." ++ verifyJwtTokenDocsMessage cfg))
  else if e.code = .NO_MATCHING_KID then
    FirebaseAuthError.ofInfo AuthClientErrorCode.INVALID_ARGUMENT
      (some (cfg.tokenInfo.jwtName ++ " has \"kid\" claim which does not correspond to a known public key. Most likely the " ++
        cfg.tokenInfo.shortName ++ " is expired, so get a fresh token from your client app and try again."))
  else
    FirebaseAuthError.ofInfo AuthClientErrorCode.INVALID_ARGUMENT (some e.message)

/-- `key-store.ts` `FirebaseTokenVerifier.decodeAndVerify`: compute
`currentTimestamp = Math.floor(Date.now() / 1000) + clockSkewSeconds`,
structurally decode, check the claims policy, then verify the signature
(the emulator verifier being a no-op), mapping signature-stage
`JwtError`s through `mapJwtErrorToAuthError`. -/
def decodeAndVerify (signatureVerifier : TokenParts → Except JwtError Unit)
    (cfg : VerifierConfig) (nowSeconds : ℚ) (token : TokenParts)
    (isEmulator : Bool) (clockSkewSeconds : ℚ) :
    Except FirebaseAuthError DecodedPayload :=
  let currentTimestamp := nowSeconds + clockSkewSeconds
  match safeDecode cfg token currentTimestamp with
  | .error e => .error e
  | .ok dt =>
    match verifyPayload cfg dt.payload currentTimestamp with
    | .error e => .error e
    | .ok _ =>
      match (if isEmulator then Except.ok () else signatureVerifier token) with
      | .error je => .error (mapJwtErrorToAuthError cfg je)
      | .ok _ => .ok dt.payload

/-- The result of a successful `verifyJWT`: the payload with `sub` copied
into `uid`. -/
structure VerifiedIdToken where
  payload : DecodedPayload
  uid : String
deriving Repr

/-- `key-store.ts` `FirebaseTokenVerifier.verifyJWT`: reject a
`clockSkewSeconds` outside `[0, 60]` or non-integer, then run
`decodeAndVerify` — with the literal `0` as its clock-skew argument,
exactly as the source does (`this.decodeAndVerify(jwtToken, isEmulator, 0)`),
so the accepted `clockSkewSeconds` is discarded — and copy `sub` to
`uid` on success.  `Number.isInteger` on a `ℚ` is `den = 1`. -/
def verifyJWT (signatureVerifier : TokenParts → Except JwtError Unit)
    (cfg : VerifierConfig) (nowSeconds : ℚ) (jwtToken : TokenParts)
    (isEmulator : Bool) (clockSkewSeconds : ℚ) :
    Except FirebaseAuthError VerifiedIdToken :=
  if clockSkewSeconds < 0 ∨ clockSkewSeconds > 60 ∨ clockSkewSeconds.den ≠ 1 then
    .error (FirebaseAuthError.ofInfo AuthClientErrorCode.INVALID_ARGUMENT
      (some "clockSkewSeconds must be an integer between 0 and 60."))
  else
    match decodeAndVerify signatureVerifier cfg nowSeconds jwtToken isEmulator 0 with
    | .error e => .error e
    | .ok payload => .ok { payload := payload, uid := payload.sub }

end FirebaseTokenVerifier

/-! ### client.ts — retry policy -/

/-- `client.ts` `RetryConfig` (optional fields as `Option`). -/
structure RetryConfig where
  maxRetries : Nat
  statusCodes : Option (List Nat)
  ioErrorCodes : Option (List String)
  backOffFactor : Option ℚ
  maxDelayInMillis : ℚ
deriving Repr

/-- `client.ts` `defaultRetryConfig()`. -/
def defaultRetryConfig : RetryConfig :=
  { maxRetries := 4,
    statusCodes := some [503],
    ioErrorCodes := some ["ECONNRESET", "ETIMEDOUT"],
    backOffFactor := some 0.5,
    maxDelayInMillis := 60 * 1000 }

/-- The failure a `fetchWithRetry` attempt can end with: a wrapped non-2xx
(or unparsable-body) `HttpError` carrying its status, an `AbortError`
from the 25-second timeout, or any other fetch rejection. -/
inductive FetchFailure where
  | http (status : Nat) (body : String)
  | abortError
  | other (message : String)
deriving DecidableEq, Repr

namespace BaseClient

/-- `client.ts` `BaseClient.backOffDelayMillis`: `0` for attempt `0`,
otherwise `2^attempts * backOffFactor` seconds in milliseconds, capped by
`Math.min` at `maxDelayInMillis` (`backOffFactor || 0` is `getD 0`). -/
def backOffDelayMillis (cfg : RetryConfig) (retryAttempts : Nat) : ℚ :=
  if retryAttempts = 0 then 0
  else
    let backOffFactor := cfg.backOffFactor.getD 0
    let delayInSeconds := (2 : ℚ) ^ retryAttempts * backOffFactor
    min (delayInSeconds * 1000) cfg.maxDelayInMillis

/-- `client.ts` `BaseClient.isRetryEligible`: attempts below the maximum,
and an `HttpError` status in the configured allow-list, a non-abort
otherwise. -/
def isRetryEligible (cfg : RetryConfig) (retryAttempts : Nat) (err : FetchFailure) : Bool :=
  if retryAttempts ≥ cfg.maxRetries then false
  else
    match err with
    | .http status _ => (cfg.statusCodes.getD []).contains status
    | .abortError => false
    | .other _ => true

/-- The retry decision of `fetchWithRetry`'s catch branch:
`canRetry && delayMillis <= this.retryConfig.maxDelayInMillis`. -/
def retriesNext (cfg : RetryConfig) (retryAttempts : Nat) (err : FetchFailure) : Bool :=
  isRetryEligible cfg retryAttempts err &&
    decide (backOffDelayMillis cfg retryAttempts ≤ cfg.maxDelayInMillis)

end BaseClient

/-! ### auth-api-requests.ts and auth.ts -/

/-- `auth-api-requests.ts` minimum session cookie duration (5 minutes,
in seconds). -/
def MIN_SESSION_COOKIE_DURATION_SECS : ℚ := 5 * 60

/-- `auth-api-requests.ts` maximum session cookie duration (2 weeks,
in seconds). -/
def MAX_SESSION_COOKIE_DURATION_SECS : ℚ := 14 * 24 * 60 * 60

/-- The request body `AuthApiClient.createSessionCookie` builds for the
`:createSessionCookie` endpoint. -/
structure SessionCookieRequest where
  idToken : String
  validDuration : ℚ
deriving DecidableEq, Repr

/-- The request validator of `FIREBASE_AUTH_CREATE_SESSION_COOKIE`:
`idToken` must be a non-empty string (else `INVALID_ID_TOKEN`) and
`validDuration` a number within
`[MIN_SESSION_COOKIE_DURATION_SECS, MAX_SESSION_COOKIE_DURATION_SECS]`
(else `INVALID_SESSION_COOKIE_DURATION`); `isNumber(validDuration)` holds
by construction here since the caller computed it from a number. -/
def createSessionCookieRequestValidator (request : SessionCookieRequest) :
    Except FirebaseAuthError Unit :=
  if !isNonEmptyString (.str request.idToken) then
    .error (FirebaseAuthError.ofInfo AuthClientErrorCode.INVALID_ID_TOKEN)
  else if request.validDuration < MIN_SESSION_COOKIE_DURATION_SECS ∨
      request.validDuration > MAX_SESSION_COOKIE_DURATION_SECS then
    .error (FirebaseAuthError.ofInfo AuthClientErrorCode.INVALID_SESSION_COOKIE_DURATION)
  else
    .ok ()

namespace BaseAuth

/-- `auth.ts` `BaseAuth.createSessionCookie` composed with
`AuthApiClient.createSessionCookie` up to the point the endpoint is
invoked: reject a non-number `expiresIn` (the options object
`{ expiresIn }` is a non-null object by construction) with
`INVALID_SESSION_COOKIE_DURATION`; convert to seconds
(`validDuration = expiresIn / 1000`); run the endpoint's request
validator; on success the endpoint is called with the built request,
which the model returns.  (The network call itself and the response
validator are outside this claim's scope; an `AuthApiClient` is assumed
configured, i.e. a credential was supplied.) -/
def createSessionCookie (idToken : String) (expiresIn : JSValue) :
    Except FirebaseAuthError SessionCookieRequest :=
  match expiresIn with
  | .num q =>
    let request : SessionCookieRequest := { idToken := idToken, validDuration := q / 1000 }
    match createSessionCookieRequestValidator request with
    | .error e => .error e
    | .ok _ => .ok request
  | _ => .error (FirebaseAuthError.ofInfo AuthClientErrorCode.INVALID_SESSION_COOKIE_DURATION)

/-- The fields of a fetched `UserRecord` that the revocation check reads.
`tokensValidAfterTime` is the record's timestamp already taken through
`new Date(...).getTime()` to epoch milliseconds; `none` models the field
being absent (or otherwise falsy), i.e. the
`if (user.tokensValidAfterTime)` guard failing. -/
structure UserRecordLite where
  disabled : Bool
  tokensValidAfterTime : Option ℚ
deriving Repr

/-- `auth.ts` `BaseAuth.verifyDecodedJWTNotRevokedOrDisabled`, given the
fetched user record and the decoded token's (numeric) `auth_time`:
a disabled user fails with `USER_DISABLED`; otherwise, when the record
carries a `tokensValidAfterTime`, the token is revoked exactly when
`auth_time * 1000` (epoch ms) is strictly below it, failing with the
caller-supplied revocation error info. -/
def verifyDecodedJWTNotRevokedOrDisabled (user : UserRecordLite)
    (authTime : ℚ) (revocationErrorInfo : ErrorInfo) :
    Except FirebaseAuthError Unit :=
  if user.disabled then
    .error (FirebaseAuthError.ofInfo AuthClientErrorCode.USER_DISABLED
      (some "The user record is disabled."))
  else
    match user.tokensValidAfterTime with
    | some validSinceUtc =>
      let authTimeUtc := authTime * 1000
      if authTimeUtc < validSinceUtc then
        .error (FirebaseAuthError.ofInfo revocationErrorInfo)
      else
        .ok ()
    | none => .ok ()

end BaseAuth

/-! ## Theorems about the claims -/

/-- C2 counterexample: with reference timestamp 1000, a payload with
`iat = 1000` (`iat == now`) is rejected with the argument code — the claim
says it is valid — and a payload with `exp = 1000` (`exp == now`) decodes
successfully — the claim says every `exp <= now` fails with the expiry
code. -/
theorem C2_counterexample :
    jwtErrCode (decodePayload
      { aud := .str "projectId1234", sub := .str "userId12345", iss := .str "issuer",
        iat := .num 1000, exp := .num 2000, auth_time := .undef } 1000) =
      some .INVALID_ARGUMENT ∧
    exceptOk (decodePayload
      { aud := .str "projectId1234", sub := .str "userId12345", iss := .str "issuer",
        iat := .num 900, exp := .num 1000, auth_time := .undef } 1000) = true :=
  ⟨by decide, by decide⟩

/-- C2 (amended): for a payload whose `aud`, `sub`, `iss` are non-empty
strings and whose `iat`, `exp` are numbers, `decodePayload` with reference
timestamp `now` fails with `TOKEN_EXPIRED` exactly when `iat < now` and
`exp < now` (so `exp == now` is still valid); it fails with the argument
code from the temporal checks exactly when `iat >= now` (so `iat == now`
is rejected); and it succeeds exactly when `iat < now` and `exp >= now`. -/
theorem C2_amended (aud sub iss : String) (auth : JSValue) (iat expv now : ℚ)
    (ha : aud ≠ "") (hs : sub ≠ "") (hi : iss ≠ "") :
    (jwtErrCode (decodePayload
        { aud := .str aud, sub := .str sub, iss := .str iss,
          iat := .num iat, exp := .num expv, auth_time := auth } now) =
        some .TOKEN_EXPIRED ↔ iat < now ∧ expv < now) ∧
    (jwtErrCode (decodePayload
        { aud := .str aud, sub := .str sub, iss := .str iss,
          iat := .num iat, exp := .num expv, auth_time := auth } now) =
        some .INVALID_ARGUMENT ↔ now ≤ iat) ∧
    (exceptOk (decodePayload
        { aud := .str aud, sub := .str sub, iss := .str iss,
          iat := .num iat, exp := .num expv, auth_time := auth } now) = true ↔
      iat < now ∧ now ≤ expv) := by
  by_cases hiat : now ≤ iat <;> by_cases hexp : now > expv <;>
    simp [decodePayload, ha, hs, hi, hiat, hexp, jwtErrCode, exceptOk,
      not_le.mp, not_lt.mp]

/-- C2 amended witness: a concrete instance — `iat = 900 < 1000 = now` and
`exp = 1000 = now` decodes successfully. -/
theorem C2_amended_witness :
    exceptOk (decodePayload
      { aud := .str "projectId1234", sub := .str "userId12345", iss := .str "issuer",
        iat := .num 900, exp := .num 1000, auth_time := .undef } 1000) = true :=
  (C2_amended "projectId1234" "userId12345" "issuer" .undef 900 1000 1000
    (by decide) (by decide) (by decide)).2.2.mpr (by norm_num)

/-- C3: `PublicKeySignatureVerifier.verify` is key selection by the first
`kid` match: with no matching key it fails `NO_MATCHING_KID`; at the first
matching key it succeeds when the cryptographic check passes and otherwise
fails `INVALID_SIGNATURE` with message "The token signature is invalid.",
never consulting later keys. -/
theorem C3_verify_first_matching_kid
    (cryptoVerify : JsonWebKeyWithKid → List Nat → List Nat → Bool)
    (publicKeys : List JsonWebKeyWithKid) (token : SignedTokenInput) :
    PublicKeySignatureVerifier.verify cryptoVerify publicKeys token =
      match publicKeys.find? (fun k => k.kid == token.kid) with
      | none => .error { code := .NO_MATCHING_KID, message := "The token does not match the kid." }
      | some k =>
        if cryptoVerify k token.signature token.headerPayloadBytes then .ok ()
        else .error { code := .INVALID_SIGNATURE, message := "The token signature is invalid." } := by
  induction publicKeys with
  | nil => rfl
  | cons k rest ih =>
    by_cases h : k.kid = token.kid
    · simp [PublicKeySignatureVerifier.verify, List.find?_cons, h]
    · simp [PublicKeySignatureVerifier.verify, List.find?_cons, h, ih]

/-- C5: evaluation of the codec at inputs witnessing that the base64url
round-trip is broken: the source applies the `_`→`/`, `-`→`+` substitution
to `decodeBase64`'s *output*, so `decode(encode("-"))` yields `"+"`, and
genuine base64url text containing `-` (here the encoding of the RFC 3548
example bytes, which the repository's own test expects to decode) makes
`atob` throw. -/
theorem C5_roundtrip_failure :
    encodeBase64Url "-" = "LQ==" ∧
    decodeBase64Url (encodeBase64Url "-") = some "+" ∧
    decodeBase64Url "FPucA9l-" = none :=
  ⟨by decide, by decide, by decide⟩

/-- C6 counterexample: a header whose `kid` is the empty string `""` (with
`alg = "RS256"`) is accepted by `decodeHeader` — the claim says it is
rejected with `NO_KID_IN_HEADER`. -/
theorem C6_counterexample :
    exceptOk (decodeHeader { kid := .str "", alg := .str "RS256" }) = true := by
  decide

/-- C6 (amended): `decodeHeader` fails with `NO_KID_IN_HEADER` exactly
when the header's `kid` is not a string (`isString`, not
`isNonEmptyString`); in particular `kid = ""` passes this check. -/
theorem C6_amended (h : RawHeader) :
    jwtErrCode (decodeHeader h) = some .NO_KID_IN_HEADER ↔ isString h.kid = false := by
  rcases h with ⟨kid, alg⟩
  cases kid <;> cases alg <;>
    simp only [decodeHeader, isString, jwtErrCode] <;>
    first
      | (simp; done)
      | (rename_i s1 s2; by_cases hx : s2 = "RS256" <;> simp [hx])

/-- C7: evaluation of `UrlKeyFetcher.refresh` at a key-set-shaped response
body: `{ keys: [ {kid, kty, ...} ] }` is rejected with the parse error
(because `isX509Certificates` finds the non-string `keys` value and there
is no key-set branch), and the empty certificate map `{}` — which the
repository's own test expects to be rejected — is accepted with an empty
key list. -/
theorem C7_keyset_shape_rejected
    (x509ToJwk : String → String → JsonWebKeyWithKid)
    (jsNumber : String → Option ℚ) :
    UrlKeyFetcher.refresh x509ToJwk jsNumber
      { ok := true, text := "",
        body := .obj [("keys", .arr [.obj
          [("kid", .str "f90fb1ae048a548fb681ad6092b0b869ea467ac6"),
           ("kty", .str "RSA"), ("e", .str "AQAB")]])],
        cacheControl := none } =
      .error ("The public keys are not an object or null: \"[object Object]") ∧
    UrlKeyFetcher.refresh x509ToJwk jsNumber
      { ok := true, text := "", body := .obj [], cacheControl := none } =
      .ok ([], none) :=
  ⟨rfl, rfl⟩


/-- C9: the backoff delay is 0 at attempt 0 and otherwise
`2^attempt * backOffFactor` seconds in milliseconds capped at
`maxDelayInMillis`; `fetchWithRetry` retries only when that delay does not
exceed `maxDelayInMillis`. -/
theorem C9_backoff_delay (cfg : RetryConfig) (n : Nat) (err : FetchFailure) :
    BaseClient.backOffDelayMillis cfg 0 = 0 ∧
    (n ≠ 0 → BaseClient.backOffDelayMillis cfg n =
      min ((2 : ℚ) ^ n * cfg.backOffFactor.getD 0 * 1000) cfg.maxDelayInMillis) ∧
    (BaseClient.retriesNext cfg n err = true →
      BaseClient.backOffDelayMillis cfg n ≤ cfg.maxDelayInMillis) := by
  refine ⟨rfl, ?_, ?_⟩
  · intro h
    simp [BaseClient.backOffDelayMillis, h, mul_assoc]
  · intro h
    simp only [BaseClient.retriesNext, Bool.and_eq_true, decide_eq_true_eq] at h
    exact h.2

/-- C9 witness: with the default retry configuration and attempt 3 the
delay is `2^3 * 0.5 * 1000 = 4000` milliseconds, below the 60000 cap, and
a retryable 503 failure at attempt 3 is retried. -/
theorem C9_backoff_delay_witness :
    BaseClient.backOffDelayMillis defaultRetryConfig 3 = 4000 ∧
    BaseClient.retriesNext defaultRetryConfig 3 (.http 503 "Service Unavailable") = true ∧
    BaseClient.backOffDelayMillis defaultRetryConfig 3 ≤ defaultRetryConfig.maxDelayInMillis := by
  have h := C9_backoff_delay defaultRetryConfig 3 (.http 503 "Service Unavailable")
  have he : BaseClient.backOffDelayMillis defaultRetryConfig 3 = 4000 := by
    rw [h.2.1 (by decide)]
    norm_num [defaultRetryConfig, min_def]
  have hr : BaseClient.retriesNext defaultRetryConfig 3 (.http 503 "Service Unavailable") = true := by
    simp only [BaseClient.retriesNext, Bool.and_eq_true, decide_eq_true_eq]
    refine ⟨by simp [BaseClient.isRetryEligible, defaultRetryConfig], ?_⟩
    rw [he]
    norm_num [defaultRetryConfig]
  exact ⟨he, hr, h.2.2 hr⟩

/-- C10: with checkRevoked and a non-disabled user, the revocation error is
raised iff the record carries a `tokensValidAfterTime` strictly above
`auth_time * 1000`; an absent `tokensValidAfterTime`, or one equal to
`auth_time * 1000`, verifies successfully. -/
theorem C10_revocation_iff (user : BaseAuth.UserRecordLite) (authTime : ℚ)
    (info : ErrorInfo) (hd : user.disabled = false) :
    (BaseAuth.verifyDecodedJWTNotRevokedOrDisabled user authTime info =
        .error (FirebaseAuthError.ofInfo info) ↔
      ∃ t, user.tokensValidAfterTime = some t ∧ authTime * 1000 < t) ∧
    ((user.tokensValidAfterTime = none ∨
        user.tokensValidAfterTime = some (authTime * 1000)) →
      BaseAuth.verifyDecodedJWTNotRevokedOrDisabled user authTime info = .ok ()) := by
  constructor
  · cases h : user.tokensValidAfterTime with
    | none => simp [BaseAuth.verifyDecodedJWTNotRevokedOrDisabled, hd, h]
    | some t =>
      by_cases hlt : authTime * 1000 < t <;>
        simp [BaseAuth.verifyDecodedJWTNotRevokedOrDisabled, hd, h, hlt]
  · rintro (h | h) <;>
      simp [BaseAuth.verifyDecodedJWTNotRevokedOrDisabled, hd, h]

/-- C10 witness: a user with `tokensValidAfterTime = 5000` ms revokes a
token with `auth_time = 4` (4000 ms < 5000 ms). -/
theorem C10_revocation_iff_witness :
    BaseAuth.verifyDecodedJWTNotRevokedOrDisabled
      { disabled := false, tokensValidAfterTime := some 5000 } 4
      AuthClientErrorCode.ID_TOKEN_REVOKED =
      .error (FirebaseAuthError.ofInfo AuthClientErrorCode.ID_TOKEN_REVOKED) :=
  (C10_revocation_iff _ 4 _ rfl).1.mpr ⟨5000, rfl, by norm_num⟩

/-- C8: `createSessionCookie` (with a non-empty `idToken`) fails with
`INVALID_SESSION_COOKIE_DURATION` exactly when `expiresIn` is not a number
or `expiresIn / 1000` lies outside `[300, 1209600]` seconds; otherwise the
session-cookie-creation endpoint is called with that duration. -/
theorem C8_session_cookie_duration (idToken : String) (expiresIn : JSValue)
    (hid : idToken ≠ "") :
    (BaseAuth.createSessionCookie idToken expiresIn =
        .error (FirebaseAuthError.ofInfo AuthClientErrorCode.INVALID_SESSION_COOKIE_DURATION) ↔
      (∀ q : ℚ, expiresIn ≠ .num q) ∨
        ∃ q : ℚ, expiresIn = .num q ∧ (q / 1000 < 300 ∨ q / 1000 > 1209600)) ∧
    (∀ q : ℚ, expiresIn = .num q → 300 ≤ q / 1000 → q / 1000 ≤ 1209600 →
      BaseAuth.createSessionCookie idToken expiresIn =
        .ok { idToken := idToken, validDuration := q / 1000 }) := by
  have hmin : MIN_SESSION_COOKIE_DURATION_SECS = 300 := by
    norm_num [MIN_SESSION_COOKIE_DURATION_SECS]
  have hmax : MAX_SESSION_COOKIE_DURATION_SECS = 1209600 := by
    norm_num [MAX_SESSION_COOKIE_DURATION_SECS]
  constructor
  · cases expiresIn <;>
      simp only [BaseAuth.createSessionCookie, createSessionCookieRequestValidator,
        isNonEmptyString, hmin, hmax] <;>
      first
        | (simp; done)
        | skip
    case num q =>
      rw [if_neg (by simp [hid])]
      by_cases hq : q / 1000 < 300 ∨ q / 1000 > 1209600
      · rw [if_pos hq]; simp [hq]
      · rw [if_neg hq]; simp [hq]
  · intro q hq h1 h2
    subst hq
    simp only [BaseAuth.createSessionCookie, createSessionCookieRequestValidator,
      isNonEmptyString, hmin, hmax]
    rw [if_neg (by simp [hid]), if_neg (by push_neg; exact ⟨h1, h2⟩)]

/-- C8 witness: a one-day duration (86400000 ms = 86400 s) with a
non-empty token: the endpoint request carries `validDuration = 86400`. -/
theorem C8_session_cookie_duration_witness :
    BaseAuth.createSessionCookie "idToken123" (.num 86400000) =
      .ok { idToken := "idToken123", validDuration := 86400000 / 1000 } :=
  (C8_session_cookie_duration "idToken123" (.num 86400000) (by decide)).2
    86400000 rfl (by norm_num) (by norm_num)



/-- C1 counterexample: with `now = 1000` and `clockSkewSeconds = 60`, a
token with `iat = 1030` passes the structural decode at the claimed
reference timestamp `now + clockSkewSeconds = 1060`, yet `verifyJWT`
(emulator mode, so no signature stage interferes) rejects it with the
argument error: the decode inside `verifyJWT` runs with reference `now`,
because the source passes the literal `0` instead of the validated skew. -/
theorem C1_counterexample :
    exceptOk (RS256Token.decode
      ⟨⟨.str "kid123456", .str "RS256"⟩,
       ⟨.str "projectId1234", .str "userId12345",
        .str "https://securetoken.google.com/projectId1234",
        .num 1030, .num 5000, .num 900⟩⟩ 1060) = true ∧
    authErrCode (FirebaseTokenVerifier.verifyJWT (fun _ => .ok ())
      (idTokenVerifierConfig "projectId1234") 1000
      ⟨⟨.str "kid123456", .str "RS256"⟩,
       ⟨.str "projectId1234", .str "userId12345",
        .str "https://securetoken.google.com/projectId1234",
        .num 1030, .num 5000, .num 900⟩⟩
      true 60) = some "auth/argument-error" :=
  ⟨by decide, by
    have h1 : ¬((60 : ℚ) < 0 ∨ (60 : ℚ) > 60 ∨ (60 : ℚ).den ≠ 1) := by decide
    simp only [FirebaseTokenVerifier.verifyJWT, if_neg h1,
      FirebaseTokenVerifier.decodeAndVerify]
    simp only [show (1000 : ℚ) + 0 = 1000 from by norm_num]
    decide⟩

/-- C1 (amended): `verifyJWT` rejects a `clockSkewSeconds` outside
`[0, 60]` or non-integer, but an accepted value is then discarded: the
call continues as `decodeAndVerify` with clock skew `0`, so the structural
decode runs with reference timestamp `now`; consequently a well-formed
token whose `exp` lies strictly between `now` and `now + clockSkewSeconds`
does pass the temporal checks performed inside `verifyJWT` (which compare
against `now`, where only `exp < now` is expired). -/
theorem C1_amended (sv : TokenParts → Except JwtError Unit) (cfg : VerifierConfig)
    (now skew : ℚ) (isEmulator : Bool) (t : TokenParts)
    (h0 : 0 ≤ skew) (h60 : skew ≤ 60) (hint : skew.den = 1) :
    FirebaseTokenVerifier.verifyJWT sv cfg now t isEmulator skew =
      (match FirebaseTokenVerifier.decodeAndVerify sv cfg now t isEmulator 0 with
        | .error e => .error e
        | .ok payload => .ok ⟨payload, payload.sub⟩) ∧
    (∀ (kid aud sub iss : String) (iat expv : ℚ) (auth : JSValue),
      aud ≠ "" → sub ≠ "" → iss ≠ "" → iat < now → now < expv → expv < now + skew →
      exceptOk (RS256Token.decode
        ⟨⟨.str kid, .str "RS256"⟩,
         ⟨.str aud, .str sub, .str iss, .num iat, .num expv, auth⟩⟩ now) = true) := by
  constructor
  · simp only [FirebaseTokenVerifier.verifyJWT]
    rw [if_neg (by push_neg; exact ⟨h0, h60, hint⟩)]
  · intro kid aud sub iss iat expv auth ha hs hi hiat hexp _
    simp [RS256Token.decode, decodeHeader, decodePayload, exceptOk, ha, hs, hi,
      not_le.mpr hiat, not_lt.mpr (le_of_lt hexp), bind, Except.bind]

/-- C1 amended witness: with `now = 1000`, `clockSkewSeconds = 60`, a
token with `iat = 900` and `exp = 1030` strictly between `now` and
`now + 60` passes the structural decode at the reference `verifyJWT`
actually uses. -/
theorem C1_amended_witness :
    exceptOk (RS256Token.decode
      ⟨⟨.str "kid123456", .str "RS256"⟩,
       ⟨.str "projectId1234", .str "userId12345",
        .str "https://securetoken.google.com/projectId1234",
        .num 900, .num 1030, .num 900⟩⟩ 1000) = true :=
  (C1_amended (fun _ => .ok ()) (idTokenVerifierConfig "projectId1234") 1000 60 true
      ⟨⟨.str "kid123456", .str "RS256"⟩,
       ⟨.str "projectId1234", .str "userId12345",
        .str "https://securetoken.google.com/projectId1234",
        .num 900, .num 1030, .num 900⟩⟩
      (by norm_num) (by norm_num) (by decide)).2
    "kid123456" "projectId1234" "userId12345" "https://securetoken.google.com/projectId1234"
    900 1030 (.num 900)
    (by decide) (by decide) (by decide) (by norm_num) (by norm_num) (by norm_num)



/-- C4: the claims-policy check `verifyPayload` succeeds iff `aud` equals
the configured project id or the fixed `FIREBASE_AUDIENCE` constant, `iss`
equals `issuer + projectId` exactly, `sub` is at most 128 characters long,
and `auth_time` is a number with `auth_time ≤ now`; and each first
violated condition fails with its `argument-error` message. -/
theorem C4_verifyPayload_policy (cfg : VerifierConfig) (p : DecodedPayload) (now : ℚ) :
    (FirebaseTokenVerifier.verifyPayload cfg p now = .ok () ↔
      ((p.aud = cfg.projectId ∨ p.aud = FIREBASE_AUDIENCE) ∧
        p.iss = cfg.issuer ++ cfg.projectId ∧
        p.sub.length ≤ 128 ∧
        ∃ t : ℚ, p.auth_time = .num t ∧ t ≤ now)) ∧
    (¬(p.aud = cfg.projectId ∨ p.aud = FIREBASE_AUDIENCE) →
      FirebaseTokenVerifier.verifyPayload cfg p now =
        .error (FirebaseAuthError.ofInfo AuthClientErrorCode.INVALID_ARGUMENT
          (some (FirebaseTokenVerifier.audienceErrorMsg cfg p.aud)))) ∧
    ((p.aud = cfg.projectId ∨ p.aud = FIREBASE_AUDIENCE) →
      p.iss ≠ cfg.issuer ++ cfg.projectId →
      FirebaseTokenVerifier.verifyPayload cfg p now =
        .error (FirebaseAuthError.ofInfo AuthClientErrorCode.INVALID_ARGUMENT
          (some (FirebaseTokenVerifier.issuerErrorMsg cfg p.iss)))) ∧
    ((p.aud = cfg.projectId ∨ p.aud = FIREBASE_AUDIENCE) →
      p.iss = cfg.issuer ++ cfg.projectId → 128 < p.sub.length →
      FirebaseTokenVerifier.verifyPayload cfg p now =
        .error (FirebaseAuthError.ofInfo AuthClientErrorCode.INVALID_ARGUMENT
          (some (FirebaseTokenVerifier.subjectErrorMsg cfg)))) ∧
    ((p.aud = cfg.projectId ∨ p.aud = FIREBASE_AUDIENCE) →
      p.iss = cfg.issuer ++ cfg.projectId → p.sub.length ≤ 128 →
      (∀ t : ℚ, p.auth_time ≠ .num t) →
      FirebaseTokenVerifier.verifyPayload cfg p now =
        .error (FirebaseAuthError.ofInfo AuthClientErrorCode.INVALID_ARGUMENT
          (some (FirebaseTokenVerifier.noAuthTimeErrorMsg cfg)))) ∧
    (∀ t : ℚ, (p.aud = cfg.projectId ∨ p.aud = FIREBASE_AUDIENCE) →
      p.iss = cfg.issuer ++ cfg.projectId → p.sub.length ≤ 128 →
      p.auth_time = .num t → now < t →
      FirebaseTokenVerifier.verifyPayload cfg p now =
        .error (FirebaseAuthError.ofInfo AuthClientErrorCode.INVALID_ARGUMENT
          (some (FirebaseTokenVerifier.badAuthTimeErrorMsg cfg)))) := by
  refine ⟨?_, ?_, ?_, ?_, ?_, ?_⟩
  · constructor
    · intro hok
      by_cases h1 : p.aud ≠ cfg.projectId ∧ p.aud ≠ FIREBASE_AUDIENCE
      · simp [FirebaseTokenVerifier.verifyPayload, h1] at hok
      · by_cases h2 : p.iss ≠ cfg.issuer ++ cfg.projectId
        · simp [FirebaseTokenVerifier.verifyPayload, h1, h2] at hok
        · by_cases h3 : p.sub.length > 128
          · simp [FirebaseTokenVerifier.verifyPayload, h1, h2, h3] at hok
          · push_neg at h2 h3
            refine ⟨not_and_or.mp h1 |>.imp not_not.mp not_not.mp, h2, h3, ?_⟩
            cases hat : p.auth_time <;>
              simp only [FirebaseTokenVerifier.verifyPayload, if_neg h1,
                if_neg (not_not_intro h2), if_neg (by omega : ¬p.sub.length > 128), hat] at hok <;>
              simp at hok
            rename_i t
            exact ⟨t, rfl, hok⟩
    · rintro ⟨h1, h2, h3, t, hat, hle⟩
      have h1' : ¬(p.aud ≠ cfg.projectId ∧ p.aud ≠ FIREBASE_AUDIENCE) := by
        rcases h1 with h | h <;> simp [h]
      simp only [FirebaseTokenVerifier.verifyPayload, if_neg h1',
        if_neg (not_not_intro h2), if_neg (by omega : ¬p.sub.length > 128), hat,
        if_neg (not_lt.mpr hle)]
  · intro h1
    rw [not_or] at h1
    simp only [FirebaseTokenVerifier.verifyPayload, if_pos h1]
  · intro h1 h2
    have h1' : ¬(p.aud ≠ cfg.projectId ∧ p.aud ≠ FIREBASE_AUDIENCE) := by
      rcases h1 with h | h <;> simp [h]
    simp only [FirebaseTokenVerifier.verifyPayload, if_neg h1', if_pos h2]
  · intro h1 h2 h3
    have h1' : ¬(p.aud ≠ cfg.projectId ∧ p.aud ≠ FIREBASE_AUDIENCE) := by
      rcases h1 with h | h <;> simp [h]
    simp only [FirebaseTokenVerifier.verifyPayload, if_neg h1',
      if_neg (not_not_intro h2), if_pos h3]
  · intro h1 h2 h3 h4
    have h1' : ¬(p.aud ≠ cfg.projectId ∧ p.aud ≠ FIREBASE_AUDIENCE) := by
      rcases h1 with h | h <;> simp [h]
    cases hat : p.auth_time <;>
      simp only [FirebaseTokenVerifier.verifyPayload, if_neg h1',
        if_neg (not_not_intro h2), if_neg (by omega : ¬p.sub.length > 128), hat]
    exact absurd hat (h4 _)
  · intro t h1 h2 h3 hat h4
    have h1' : ¬(p.aud ≠ cfg.projectId ∧ p.aud ≠ FIREBASE_AUDIENCE) := by
      rcases h1 with h | h <;> simp [h]
    simp only [FirebaseTokenVerifier.verifyPayload, if_neg h1',
      if_neg (not_not_intro h2), if_neg (by omega : ¬p.sub.length > 128), hat,
      if_pos h4]

/-- C4 witness: a fully conforming payload for the ID-token verifier of
project `projectId1234` at `now = 1000` passes the claims policy. -/
theorem C4_verifyPayload_policy_witness :
    FirebaseTokenVerifier.verifyPayload (idTokenVerifierConfig "projectId1234")
      ⟨"projectId1234", "userId12345", "https://securetoken.google.com/projectId1234",
       900, 5000, .num 900⟩ 1000 = .ok () :=
  (C4_verifyPayload_policy (idTokenVerifierConfig "projectId1234")
      ⟨"projectId1234", "userId12345", "https://securetoken.google.com/projectId1234",
       900, 5000, .num 900⟩ 1000).1.mpr
    ⟨Or.inl rfl, rfl, by decide, 900, rfl, by norm_num⟩


end FirebaseAuth
